import Mathlib

/-!
Shallow embedding of the agentlyne booking backend (src/ag-api/server.js and
its revisions under src/unnamed/) for checking the repository's
natural-language specification.

The embedding models the JavaScript routines the claims are about:
string normalization (`clean`, `pick`), JS `Number()` on decimal-integer
strings, `Date.UTC` / `Date.prototype.toISOString` civil-date arithmetic,
the `tzOffsetMinutesAt` / `zonedToUtcISO` time-zone conversion (with the
`Intl.DateTimeFormat` offset lookup abstracted as an environment oracle),
the `/api/slots` and `/api/book` handlers, the `ensureSchema` step, the SQL
statements issued by the handlers, and the vendor session-minting handlers.
-/

namespace Agentlyne

/-! ### JS string helpers -/

/-- Whitespace characters recognized by JS `String.prototype.trim`
(restricted to the ASCII whitespace that can occur in the inputs considered). -/
def isJsSpace (c : Char) : Bool :=
  c = ' ' || c = '\t' || c = '\n' || c = '\r' || c = '\x0b' || c = '\x0c'

/-- `s.trim()` on a char list. -/
def jsTrimList (cs : List Char) : List Char :=
  ((cs.dropWhile isJsSpace).reverse.dropWhile isJsSpace).reverse

/-- JS `s.trim()`. -/
def jsTrim (s : String) : String :=
  String.mk (jsTrimList s.toList)

/-- Is the character a carriage return or newline (the class `[\r\n]`)? -/
def isNL (c : Char) : Bool :=
  c = '\r' || c = '\n'

/-- `s.replace(/[\r\n]+/g, ' ')` on a char list: each maximal run of CR/LF
characters becomes a single space.  The flag records whether the previous
character was part of a CR/LF run (so the run contributes one space only). -/
def collapseNLAux : Bool → List Char → List Char
  | _, [] => []
  | inRun, c :: rest =>
    if isNL c then
      if inRun then collapseNLAux true rest
      else ' ' :: collapseNLAux true rest
    else c :: collapseNLAux false rest

/-- `s.replace(/[\r\n]+/g, ' ')` on a char list. -/
def collapseNL (cs : List Char) : List Char :=
  collapseNLAux false cs

/-- server.js `clean`: `String(s ?? '').replace(/[\r\n]+/g, ' ').trim()`. -/
def clean (s : String) : String :=
  jsTrim (String.mk (collapseNL s.toList))

/-- Request bodies are modelled as string-valued association lists
(`none` result = the JS property is absent or null). -/
def jsGet (b : List (String × String)) (k : String) : Option String :=
  (b.find? (fun p => p.1 == k)).map (fun p => p.2)

/-- server.js `pick(obj, keys, def)`: first key whose value is non-null and
whose trimmed string form is nonempty wins; otherwise the default. -/
def pick (b : List (String × String)) : List String → String → String
  | [], deflt => deflt
  | k :: ks, deflt =>
    match jsGet b k with
    | some v => if jsTrim v ≠ "" then v else pick b ks deflt
    | none => pick b ks deflt

/-! ### JS Number() on integer strings -/

/-- All-decimal-digit string to its value; `none` when empty or a
non-digit occurs. -/
def digitsToNat? (cs : List Char) : Option Nat :=
  if cs = [] then none
  else if cs.all Char.isDigit then
    some (cs.foldl (fun a c => a * 10 + (c.toNat - 48)) 0)
  else none

/-- Models JS `Number(s)` for string arguments, restricted to
optionally-signed decimal *integer* strings (the only numeric strings the
modelled call sites receive): whitespace is trimmed, the empty string is 0,
and any other string that is not an optionally-signed digit run is NaN,
modelled as `none`.  Fractional/hex/exponent syntaxes are outside the
modelled domain. -/
def jsNumber (s : String) : Option Int :=
  match jsTrimList s.toList with
  | [] => some 0
  | '+' :: rest => (digitsToNat? rest).map Int.ofNat
  | '-' :: rest => (digitsToNat? rest).map (fun n => -(n : Int))
  | t => (digitsToNat? t).map Int.ofNat

/-- JS `s.split(sep)` for a single-character separator (the only form the
code uses: `'-'` and `':'`), on a char list with an accumulator for the
current segment. -/
def splitOnCharAux (sep : Char) : List Char → List Char → List String
  | [], acc => [String.mk acc.reverse]
  | c :: rest, acc =>
    if c = sep then String.mk acc.reverse :: splitOnCharAux sep rest []
    else splitOnCharAux sep rest (c :: acc)

/-- JS `s.split(sep)` for a single-character separator. -/
def splitOnChar (sep : Char) (s : String) : List String :=
  splitOnCharAux sep s.toList []

/-- Decimal digits of a natural number (fuel-bounded so the definition is
structurally recursive; 24 digits suffice for every value produced by the
model). -/
def natReprAux : Nat → Nat → List Char
  | 0, _ => []
  | fuel + 1, n =>
    if n = 0 then []
    else natReprAux fuel (n / 10) ++ [Char.ofNat (48 + n % 10)]

/-- Decimal rendering of a natural number. -/
def natRepr (n : Nat) : String :=
  if n = 0 then "0" else String.mk (natReprAux 24 n)

/-- Decimal rendering of an integer (JS template-literal form). -/
def intRepr (n : Int) : String :=
  if n < 0 then "-" ++ natRepr n.natAbs else natRepr n.natAbs

/-! ### Civil-date arithmetic (Date.UTC / toISOString) -/

/-- Days since 1970-01-01 of the Gregorian date y-m-d (month 1..12, day 1
in-range; out-of-range day offsets are handled by the caller adding
`d - 1`). Standard civil-from-days/days-from-civil construction. -/
def daysFromCivil (y m d : Int) : Int :=
  let y' := if m ≤ 2 then y - 1 else y
  let era := Int.fdiv y' 400
  let yoe := y' - era * 400
  let mp := Int.emod (m + 9) 12
  let doy := Int.fdiv (153 * mp + 2) 5 + d - 1
  let doe := yoe * 365 + Int.fdiv yoe 4 - Int.fdiv yoe 100 + doy
  era * 146097 + doe - 719468

/-- Inverse of `daysFromCivil`: the Gregorian (year, month, day) of a day
number (days since 1970-01-01). -/
def civilFromDays (z0 : Int) : Int × Int × Int :=
  let z := z0 + 719468
  let era := Int.fdiv z 146097
  let doe := z - era * 146097
  let yoe := Int.fdiv (doe - Int.fdiv doe 1460 + Int.fdiv doe 36524 - Int.fdiv doe 146096) 365
  let y := yoe + era * 400
  let doy := doe - (365 * yoe + Int.fdiv yoe 4 - Int.fdiv yoe 100)
  let mp := Int.fdiv (5 * doy + 2) 153
  let d := doy - Int.fdiv (153 * mp + 2) 5 + 1
  let m := mp + (if mp < 10 then 3 else -9)
  (if m ≤ 2 then y + 1 else y, m, d)

/-- JS `Date.UTC(y, mo, d, H, M, 0, 0)` with `mo` 0-based, including the
two-digit-year rule (0..99 maps to 1900+y), month overflow normalization,
day overflow via `d - 1`, and the TimeClip range check (|ms| ≤ 8.64e15,
otherwise NaN = `none`).  `none` arguments are NaN and propagate. -/
def dateUTC (y mo d H M : Option Int) : Option Int :=
  match y, mo, d, H, M with
  | some y, some mo, some d, some H, some M =>
    let yr := if 0 ≤ y ∧ y ≤ 99 then y + 1900 else y
    let ym := yr + Int.fdiv mo 12
    let mm := Int.emod mo 12
    let days := daysFromCivil ym (mm + 1) 1 + (d - 1)
    let ms := days * 86400000 + H * 3600000 + M * 60000
    if ms.natAbs ≤ 8640000000000000 then some ms else none
  | _, _, _, _, _ => none

/-- Left-pad a natural number with zeros to the given width. -/
def padNum (w : Nat) (n : Nat) : String :=
  let s := natRepr n
  String.mk (List.replicate (w - s.length) '0') ++ s

/-- The string produced by JS `toISOString` for an epoch-milliseconds value
(in range): `YYYY-MM-DDTHH:mm:ss.sssZ`, with expanded ±YYYYYY years outside
0..9999. -/
def renderIso (ms : Int) : String :=
  let day := Int.fdiv ms 86400000
  let rem := (ms - day * 86400000).toNat
  let c := civilFromDays day
  let y := c.1
  let mo := c.2.1
  let d := c.2.2
  let hh := rem / 3600000
  let mi := rem % 3600000 / 60000
  let ss := rem % 60000 / 1000
  let msc := rem % 1000
  let ys :=
    if 0 ≤ y ∧ y ≤ 9999 then padNum 4 y.toNat
    else if 9999 < y then "+" ++ padNum 6 y.toNat
    else "-" ++ padNum 6 (-y).toNat
  ys ++ "-" ++ padNum 2 mo.toNat ++ "-" ++ padNum 2 d.toNat ++ "T" ++
    padNum 2 hh ++ ":" ++ padNum 2 mi ++ ":" ++ padNum 2 ss ++ "." ++
    padNum 3 msc ++ "Z"

/-- JS `new Date(ms).toISOString()`: `none` models the RangeError thrown
for NaN or out-of-range inputs. -/
def toISOString (ms : Int) : Option String :=
  if ms.natAbs ≤ 8640000000000000 then some (renderIso ms) else none

/-! ### Time-zone offset lookup (tzOffsetMinutesAt / zonedToUtcISO) -/

/-- Try to match the regex `GMT([+-]\d{1,2})(?::(\d{2}))?` at the head of
the character list, returning the signed offset minutes `sign*(h*60+mm)`
computed by `tzOffsetMinutesAt` from the match groups. -/
def gmtTryHere : List Char → Option Int
  | 'G' :: 'M' :: 'T' :: s :: d1 :: rest =>
    if (s = '+' || s = '-') && d1.isDigit then
      let hDigits :=
        match rest with
        | d2 :: t2 =>
          if d2.isDigit then ((d1.toNat - 48) * 10 + (d2.toNat - 48), t2)
          else (d1.toNat - 48, d2 :: t2)
        | [] => (d1.toNat - 48, ([] : List Char))
      let mval :=
        match hDigits.2 with
        | ':' :: m1 :: m2 :: _ =>
          if m1.isDigit && m2.isDigit then (m1.toNat - 48) * 10 + (m2.toNat - 48) else 0
        | _ => 0
      let sign : Int := if s = '-' then -1 else 1
      some (sign * ((hDigits.1 : Int) * 60 + mval))
    else none
  | _ => none

/-- Leftmost-match regex search for `GMT([+-]\d{1,2})(?::(\d{2}))?` over a
string, as done by `name.match(...)` in `tzOffsetMinutesAt`. -/
def parseGmtOffset : List Char → Option Int
  | [] => none
  | c :: rest =>
    match gmtTryHere (c :: rest) with
    | some v => some v
    | none => parseGmtOffset rest

/-- The `Intl.DateTimeFormat(...).formatToParts` offset lookup is a platform
call; it is abstracted as an oracle `TzView`: given a zone name and an epoch
instant it returns the `timeZoneName` part value (e.g. "GMT-4"), or `none`
when the lookup throws (unrecognized zone name). -/
def TzView : Type := String → Int → Option String

/-- server.js `tzOffsetMinutesAt(tz, epochMs)`: format the instant in the
zone, extract the GMT offset via the regex, return `sign*(h*60+mm)`; any
throw (invalid zone, invalid date — `epochMs = none` models NaN) and any
regex miss yield 0. -/
def tzOffsetMinutesAt (tzView : TzView) (tz : String) (epochMs : Option Int) : Int :=
  match epochMs with
  | none => 0
  | some ms =>
    if ms.natAbs > 8640000000000000 then 0
    else
      match tzView tz ms with
      | none => 0
      | some s =>
        let name := if s = "" then "GMT" else s
        match parseGmtOffset name.toList with
        | none => 0
        | some v => v

/-- The naive UTC timestamp built by `zonedToUtcISO` from the literal
date/time components:
`Date.UTC(y, (m??1)-1, d??1, H??0, M??0, 0, 0)` where
`[y,m,d] = dateStr.split('-').map(Number)` and
`[H,M] = timeStr.split(':').map(Number)`.  Missing components are
`undefined` (the `??` defaults apply); NaN components propagate as `none`. -/
def parseNaive (dateStr timeStr : String) : Option Int :=
  let dp := ((splitOnChar '-' dateStr).map jsNumber)
  let tp := ((splitOnChar ':' timeStr).map jsNumber)
  let y : Option Int := (dp.get? 0).join
  let mo : Option Int :=
    match dp.get? 1 with
    | none => some 0
    | some none => none
    | some (some v) => some (v - 1)
  let d : Option Int :=
    match dp.get? 2 with
    | none => some 1
    | some none => none
    | some (some v) => some v
  let H : Option Int :=
    match tp.get? 0 with
    | none => some 0
    | some none => none
    | some (some v) => some v
  let M : Option Int :=
    match tp.get? 1 with
    | none => some 0
    | some none => none
    | some (some v) => some v
  dateUTC y mo d H M

/-- server.js `zonedToUtcISO(dateStr, timeStr, tz)`: `none` for any falsy
argument; otherwise naive UTC minus the sampled offset, rendered by
`toISOString`; any throw in the body (NaN / out-of-range date) is caught
and yields `none`. -/
def zonedToUtcISO (tzView : TzView) (dateStr timeStr tz : String) : Option String :=
  if dateStr = "" || timeStr = "" || tz = "" then none
  else
    let naive := parseNaive dateStr timeStr
    let offMin := tzOffsetMinutesAt tzView tz naive
    match naive with
    | none => none
    | some n => toISOString (n - offMin * 60 * 1000)

/-! ### GET /api/slots -/

/-- The JS `Date` ISO parser applied to `` `${date}T09:00:00` `` for a
calendar-date query value: accepts exactly `YYYY-MM-DD` with in-range month
and day, `none` otherwise (an unparsable date yields an invalid Date and the
handler then throws). -/
def parseSlotsDate (dateStr : String) : Option (Int × Int × Int) :=
  match splitOnChar '-' dateStr with
  | [ys, ms, ds] =>
    match digitsToNat? ys.toList, digitsToNat? ms.toList, digitsToNat? ds.toList with
    | some y, some m, some d =>
      if ys.length = 4 && ms.length = 2 && ds.length = 2
          && 1 ≤ m && m ≤ 12 && 1 ≤ d && d ≤ 31 then
        some ((y : Int), (m : Int), (d : Int))
      else none
    | _, _, _ => none
  | _ => none

/-- JS `d.setUTCHours(0, mins, 0, 0)`: keep the UTC day of `t`, replace the
time of day with `mins` minutes (normalized). -/
def setUTCHoursZero (t : Int) (mins : Int) : Int :=
  Int.fdiv t 86400000 * 86400000 + mins * 60000

/-- server.js `GET /api/slots`: `base = date ? new Date(`...T09:00:00`) :
new Date()` — the date-time literal has no offset so it is interpreted in
the server's local zone, modelled by `serverOffsetMin` minutes east of UTC;
then each of the three fixed minute offsets is applied with `setUTCHours`
and rendered with `toISOString`.  `none` models the handler throwing. -/
def slotsHandler (serverOffsetMin : Int) (nowMs : Int) (dateQ : Option String) : Option (List String) :=
  let base : Option Int :=
    match dateQ with
    | none => some nowMs
    | some ds =>
      match parseSlotsDate ds with
      | some (y, m, d) =>
        some (daysFromCivil y m d * 86400000 + 9 * 3600000 - serverOffsetMin * 60000)
      | none => none
  match base with
  | none => none
  | some b =>
    ([60 * 10, 60 * 13, 60 * 15 + 30] : List Int).mapM
      (fun mn => toISOString (setUTCHoursZero b mn))

/-! ### POST /api/book (server.js) -/

/-- Lookup in the `recentBookings` map (key → expiry ms). -/
def mget (m : List (String × Int)) (k : String) : Option Int :=
  (m.find? (fun p => p.1 == k)).map (fun p => p.2)

/-- `recentBookings.set(key, v)`: replace the binding if present, else add it. -/
def mset (m : List (String × Int)) (k : String) (v : Int) : List (String × Int) :=
  if (m.find? (fun p => p.1 == k)).isSome then
    m.map (fun p => if p.1 == k then (k, v) else p)
  else
    m ++ [(k, v)]

/-- Environment/configuration of a `/api/book` request: whether the DB pool
and SMTP transporter are configured, the de-dup TTL
(`BOOKING_DEDUP_SECONDS`, default 120), the outcome oracles for the insert
and the two sends, and the platform time-zone oracle. -/
structure BookEnv where
  poolEnabled : Bool
  transporterEnabled : Bool
  dedupSeconds : Int
  dbOk : Bool
  userMailOk : Bool
  salesMailOk : Bool
  tzView : TzView

/-- One observable side effect of the handler: an insert attempt (with its
outcome and the computed UTC start column), or an attempt to send the
submitter-confirmation or sales-alert email (with its outcome). -/
inductive Effect where
  | dbInsert (ok : Bool) (startUtc : Option String)
  | mailUser (ok : Bool)
  | mailSales (ok : Bool)
  deriving Repr, DecidableEq

/-- The JSON response of `/api/book`: HTTP status, `ok`, the `dedup:true`
marker, the `error` string, and the `email` status object when present. -/
structure BookResp where
  status : Nat
  ok : Bool
  dedupFlag : Bool
  error : Option String
  emailStatus : Option (Bool × Bool)
  deriving Repr, DecidableEq

/-- Result of one `/api/book` request: the response, the `recentBookings`
map afterwards, and the side effects performed, in order. -/
structure BookResult where
  resp : BookResp
  recentAfter : List (String × Int)
  effects : List Effect
  deriving Repr, DecidableEq

/-- The normalized required fields and dedup key of a request body, exactly
as computed at the top of the handler. -/
def normFullName (b : List (String × String)) : String :=
  clean (pick b ["fullName", "full_name", "name"] "")

def normEmail (b : List (String × String)) : String :=
  clean (pick b ["email", "mail"] "")

def normDate (b : List (String × String)) : String :=
  clean (pick b ["date"] "")

def normTime (b : List (String × String)) : String :=
  clean (pick b ["time"] "")

/-- `clean(pick(b,['timeZone','timezone','tz'])) || 'UTC'`. -/
def normTimeZone (b : List (String × String)) : String :=
  let tz0 := clean (pick b ["timeZone", "timezone", "tz"] "")
  if tz0 = "" then "UTC" else tz0

/-- `` `${email}|${date}|${time}|${timeZone}` ``. -/
def dedupKey (b : List (String × String)) : String :=
  normEmail b ++ "|" ++ normDate b ++ "|" ++ normTime b ++ "|" ++ normTimeZone b

/-- `Number(pick(b,['duration'],60)) || 60`. -/
def normDuration (b : List (String × String)) : Int :=
  match jsNumber (pick b ["duration"] "60") with
  | some n => if n = 0 then 60 else n
  | none => 60

/-- The `/api/book` handler of src/ag-api/server.js, lines 307-451:
normalize fields, reject on missing required fields (before any side
effect), short-circuit on a live dedup entry (`expiry > now`), otherwise
refresh the dedup entry, attempt the insert when the pool exists (failures
caught), then attempt the two sends when the transporter exists (each in
its own try/catch), and respond `ok:true` with the email status. -/
def handleBook (env : BookEnv) (recent : List (String × Int)) (now : Int)
    (body : List (String × String)) : BookResult :=
  let fullName := normFullName body
  let email := normEmail body
  let date := normDate body
  let time := normTime body
  let timeZone := normTimeZone body
  let duration := normDuration body
  if fullName = "" || email = "" || date = "" || time = "" then
    { resp := ⟨400, false, false,
        some "Missing required fields: fullName, email, date, time.", none⟩,
      recentAfter := recent, effects := [] }
  else
    let key := dedupKey body
    let hit : Bool :=
      match mget recent key with
      | some t => decide (now < t)
      | none => false
    if hit then
      { resp := ⟨200, true, true, none, none⟩, recentAfter := recent, effects := [] }
    else
      let recent' := mset recent key (now + env.dedupSeconds * 1000)
      let startISO := zonedToUtcISO env.tzView date time timeZone
      let _ := duration
      let dbEffects :=
        if env.poolEnabled then [Effect.dbInsert env.dbOk startISO] else []
      let mailEffects :=
        if env.transporterEnabled then
          [Effect.mailUser env.userMailOk, Effect.mailSales env.salesMailOk]
        else []
      let emailStatus :=
        if env.transporterEnabled then (env.userMailOk, env.salesMailOk)
        else (false, false)
      { resp := ⟨200, true, false, none, some emailStatus⟩,
        recentAfter := recent', effects := dbEffects ++ mailEffects }

/-- Count of database insert attempts in an effect list. -/
def countDbInserts (l : List Effect) : Nat :=
  l.countP (fun e => match e with | Effect.dbInsert _ _ => true | _ => false)

/-! ### ensureSchema (server.js lines 168-184) -/

/-- Database catalog state relevant to the schema step: the column list of
the `bookings` table when it exists. -/
structure PgState where
  bookingsCols : Option (List String)
  deriving Repr, DecidableEq

/-- The columns declared by the `CREATE TABLE IF NOT EXISTS bookings (...)`
statement in server.js `ensureSchema`. -/
def bookingsSchemaCols : List String :=
  ["id", "created_at", "name", "full_name", "email", "phone", "company", "notes",
   "timezone", "start_utc", "end_utc", "duration_min", "source", "date", "time"]

/-- `CREATE TABLE IF NOT EXISTS bookings (...)`: a no-op succeeding when the
table already exists, creates it otherwise; the Bool is "the query raised
an error", possible only when the DB is unreachable. -/
def createBookingsIfNotExists (dbUp : Bool) (db : PgState) : PgState × Bool :=
  if dbUp = false then (db, true)
  else
    match db.bookingsCols with
    | some _ => (db, false)
    | none => ({ bookingsCols := some bookingsSchemaCols }, false)

/-- server.js `ensureSchema`: returns immediately when the pool is null,
otherwise runs the single CREATE TABLE IF NOT EXISTS; a query error is
caught and logged (the Bool reports whether one occurred). -/
def ensureSchema (poolPresent dbUp : Bool) (db : PgState) : PgState × Bool :=
  if poolPresent then createBookingsIfNotExists dbUp db else (db, false)

/-! ### The SQL statements issued by the system (append-only, C8) -/

/-- The parameter vector of an INSERT into `bookings`. -/
abbrev BookingRow := List (Option String)

/-- Every SQL statement shape occurring at a `pool.query` call site in
src/ag-api/server.js and the revisions under src/unnamed/:
the `CREATE TABLE IF NOT EXISTS bookings`, the two
`ALTER TABLE bookings ALTER COLUMN ... DROP NOT NULL` of the part_000
revision, the `INSERT INTO bookings ... VALUES ...` of `/api/book` and
`/api/retell/book_demo`, the `information_schema.columns` SELECT of
`/api/db-info`, and the `select now()` of `/api/db-test`. -/
inductive SqlStmt where
  | createBookings
  | alterDropNotNull (col : String)
  | insertBookings (row : BookingRow)
  | selectColumns
  | selectNow
  deriving Repr, DecidableEq

/-- The `bookings` table contents. -/
structure DbTable where
  hasBookings : Bool
  rows : List BookingRow
  deriving Repr, DecidableEq

/-- Semantics of the statements on the table: only INSERT touches the row
list, and it appends. -/
def applyStmt (db : DbTable) : SqlStmt → DbTable
  | .createBookings => { db with hasBookings := true }
  | .alterDropNotNull _ => db
  | .insertBookings r =>
    if db.hasBookings then { db with rows := db.rows ++ [r] } else db
  | .selectColumns => db
  | .selectNow => db

/-- The database-touching operations of the system, each listed with the
statements its handler issues. -/
inductive ApiOp where
  | bookInsert (row : BookingRow)
  | bookDemoInsert (row : BookingRow)
  | dbMigrate
  | dbInfo
  | dbTest
  | schemaEnsure
  | schemaEnsureLegacy
  deriving Repr

/-- The SQL statements issued by each operation, transcribed from the
`pool.query` call sites. -/
def stmtsOf : ApiOp → List SqlStmt
  | .bookInsert r => [.insertBookings r]
  | .bookDemoInsert r => [.insertBookings r]
  | .dbMigrate => [.createBookings]
  | .schemaEnsure => [.createBookings]
  | .schemaEnsureLegacy =>
    [.createBookings, .alterDropNotNull "name", .alterDropNotNull "start_utc"]
  | .dbInfo => [.selectColumns]
  | .dbTest => [.selectNow]

/-- Run a statement list left to right. -/
def runStmts (db : DbTable) (l : List SqlStmt) : DbTable :=
  l.foldl applyStmt db

/-! ### Vendor session minting (C9) -/

/-- JSON values, for the request/response bodies of the proxy handlers. -/
inductive Json where
  | null
  | str (s : String)
  | num (n : Int)
  | boolean (b : Bool)
  | obj (fields : List (String × Json))

/-- `v?.k`: field access with optional chaining. -/
def Json.get? : Json → String → Option Json
  | .obj fs, k => (fs.find? (fun p => p.1 == k)).map (fun p => p.2)
  | _, _ => none

/-- JS truthiness of a JSON value. -/
def Json.truthy : Json → Bool
  | .null => false
  | .str s => s ≠ ""
  | .num n => n ≠ 0
  | .boolean b => b
  | .obj _ => true

/-- Truthiness of an optional field (undefined is falsy). -/
def optTruthy : Option Json → Bool
  | some v => v.truthy
  | none => false

/-- Outcome of the outbound `fetch` to the vendor: the call threw (network
error, stringified as `errStr`), or it replied with `resp.ok`,
`resp.status`, and the parsed JSON body (`none` = `resp.json()` threw, so
the `.catch(() => ({}))` turns it into `{}`). -/
inductive FetchOutcome where
  | threw (errStr : String)
  | replied (ok : Bool) (status : Int) (bodyJson : Option Json)

/-- An outbound HTTPS request made with the vendor API key as bearer. -/
structure HttpReq where
  url : String
  authBearer : String
  jsonBody : Json

/-- What a session-minting handler produced: the outbound request it made
(if it reached the fetch) and the HTTP response sent to the client. -/
structure HandlerOut where
  request : Option HttpReq
  status : Int
  body : Json

/-- part_000 `handleCreateWebCall` (lines 504-538), serving both
`POST /api/retell/create-web-call` and `POST /api/retell/token`:
reject when the key or agent id env var is missing; otherwise call the
Retell API with the key in the Authorization header; on throw respond 500
with the stringified error; on a non-ok reply or missing `access_token`
respond 500 echoing the vendor data; on success respond with
`{ access_token }` only. -/
def handleCreateWebCall (apiKey agentId : String) (outcome : FetchOutcome) : HandlerOut :=
  if apiKey = "" || agentId = "" then
    ⟨none, 500, .obj [("error", .str "Missing RETELL_API_KEY or RETELL_AGENT_ID")]⟩
  else
    let req : HttpReq :=
      ⟨"https://api.retellai.com/v2/create-web-call", apiKey,
        .obj [("agent_id", .str agentId)]⟩
    match outcome with
    | .threw errStr => ⟨some req, 500, .obj [("error", .str errStr)]⟩
    | .replied ok status bodyJson =>
      let data := bodyJson.getD (.obj [])
      let tok := data.get? "access_token"
      if ok = false || optTruthy tok = false then
        let errVal :=
          match data.get? "error" with
          | some e => if e.truthy then e else .str ("Retell returned " ++ intRepr status)
          | none => .str ("Retell returned " ++ intRepr status)
        ⟨some req, 500, .obj [("error", errVal), ("details", data)]⟩
      else
        ⟨some req, 200, .obj [("access_token", tok.getD .null)]⟩

/-- The fixed booking-protocol instructions block built by the realtime
session handler from environment values (its content reaches only the
vendor request, never the client response; braces of the JSON template are
written escaped). -/
def bookingProtocol (brand hours bizTz : String) (slotMin windowDays : Int) : String :=
  "You can schedule intro calls for " ++ brand ++ ".\n" ++
  "Collect: full name, email, (optional) phone/company, desired date, time, and the user's time zone (IANA).\n" ++
  "Confirm details. When the user confirms, EMIT EXACTLY ONE LINE:\n\n" ++
  "<<BOOK>>\x7b\"fullName\":\"...\",\"email\":\"...\",\"phone\":\"...\",\"company\":\"...\",\"date\":\"YYYY-MM-DD\",\"time\":\"HH:mm\",\"timeZone\":\"IANA/TZ\",\"duration\":" ++
  intRepr slotMin ++ "\x7d\n\n" ++
  "Rules:\n- The line must start with \"<<BOOK>>\" and then one compact JSON object.\n" ++
  "- Use 24h HH:mm time in the user's own time zone.\n" ++
  "- Default duration is " ++ intRepr slotMin ++ " minutes.\n" ++
  "- Business hours: " ++ hours ++ " (" ++ bizTz ++ "); suggest within " ++
  intRepr windowDays ++ " days.\nDo not add any other text on that line."

/-- server.js `POST /api/openai/realtime-session` (lines 456-515): reject
when `OPENAI_API_KEY` is missing; build the instructions from the request
body and environment; call the OpenAI sessions API with the key as bearer;
on throw respond `{error:"server_error"}`; on a non-ok reply or missing
`client_secret.value` respond 500 with the vendor error message; on
success respond with `{ client_secret, model }` from the vendor data. -/
def realtimeSession (apiKey brand hours bizTz : String) (slotMin windowDays : Int)
    (bodyVoice bodyInstructions : Option Json) (outcome : FetchOutcome) : HandlerOut :=
  if apiKey = "" then
    ⟨none, 500, .obj [("error", .str "Missing OPENAI_API_KEY")]⟩
  else
    let voice : Json :=
      match bodyVoice with
      | some v => if v.truthy then v else .str "verse"
      | none => .str "verse"
    let baseInstructions :=
      "You are a warm, concise voice agent for the website. Keep replies under two sentences unless clarifying.\n" ++
      bookingProtocol brand hours bizTz slotMin windowDays
    let userPart :=
      match bodyInstructions with
      | some (.str s) => if s ≠ "" then s ++ "\n" else ""
      | _ => ""
    let req : HttpReq :=
      ⟨"https://api.openai.com/v1/realtime/sessions", apiKey,
        .obj [("model", .str "gpt-4o-realtime-preview"), ("voice", voice),
              ("instructions", .str (userPart ++ baseInstructions))]⟩
    match outcome with
    | .threw _ => ⟨some req, 500, .obj [("error", .str "server_error")]⟩
    | .replied ok status bodyJson =>
      let data := bodyJson.getD (.obj [])
      let cs := data.get? "client_secret"
      let csVal := (cs.bind (fun c => c.get? "value"))
      if ok = false || optTruthy csVal = false then
        let errVal :=
          match data.get? "error" with
          | some e =>
            match e.get? "message" with
            | some m => if m.truthy then m else .str ("OpenAI returned " ++ intRepr status)
            | none => .str ("OpenAI returned " ++ intRepr status)
          | none => .str ("OpenAI returned " ++ intRepr status)
        ⟨some req, 500, .obj [("error", errVal)]⟩
      else
        ⟨some req, 200,
          .obj [("client_secret", cs.getD .null), ("model", (data.get? "model").getD .null)]⟩

/-! ### Helper lemmas -/

/-- Helper: with nonempty arguments and a parse-able naive instant,
`zonedToUtcISO` is the rendered naive instant shifted by the sampled
offset. -/
theorem zonedToUtcISO_spec (tzView : TzView) (d t z : String) (n : Int)
    (hd : d ≠ "") (ht : t ≠ "") (hz : z ≠ "")
    (hn : parseNaive d t = some n) :
    zonedToUtcISO tzView d t z =
      toISOString (n - tzOffsetMinutesAt tzView z (some n) * 60 * 1000) := by
  unfold zonedToUtcISO
  simp [hd, ht, hz, hn]

/-- Helper: with nonempty arguments and an unparsable naive instant,
`zonedToUtcISO` is null. -/
theorem zonedToUtcISO_nan (tzView : TzView) (d t z : String)
    (hd : d ≠ "") (ht : t ≠ "") (hz : z ≠ "")
    (hn : parseNaive d t = none) :
    zonedToUtcISO tzView d t z = none := by
  unfold zonedToUtcISO
  simp [hd, ht, hz, hn]

/-! ### Claim theorems -/

/-- C5: `zonedToUtcISO("2024-07-04", "14:30", "America/New_York")` returns
exactly `"2024-07-04T18:30:00.000Z"` whenever the platform zone lookup
reports the zone's summer offset `GMT-4` at the naive instant
2024-07-04T14:30Z (= 1720103400000 ms), and `zonedToUtcISO` applied to a
malformed date string returns null (the embedding is a total function, so
no exception escapes). -/
theorem zonedToUtcISO_ny_exact_and_malformed_null (tzView : TzView)
    (h : tzView "America/New_York" 1720103400000 = some "GMT-4") :
    zonedToUtcISO tzView "2024-07-04" "14:30" "America/New_York" =
        some "2024-07-04T18:30:00.000Z" ∧
      zonedToUtcISO tzView "not-a-date" "14:30" "America/New_York" = none := by
  constructor
  · rw [zonedToUtcISO_spec tzView _ _ _ 1720103400000 (by decide) (by decide)
      (by decide) (by decide)]
    unfold tzOffsetMinutesAt
    simp only [h]
    decide
  · exact zonedToUtcISO_nan tzView _ _ _ (by decide) (by decide) (by decide) (by decide)

/-- C5 witness: the theorem applied at the constant oracle reporting GMT-4. -/
theorem zonedToUtcISO_ny_exact_and_malformed_null_witness :
    zonedToUtcISO (fun _ _ => some "GMT-4") "2024-07-04" "14:30" "America/New_York" =
        some "2024-07-04T18:30:00.000Z" ∧
      zonedToUtcISO (fun _ _ => some "GMT-4") "not-a-date" "14:30" "America/New_York" = none :=
  zonedToUtcISO_ny_exact_and_malformed_null (fun _ _ => some "GMT-4") rfl

/-- C10: for a parse-able date/time and a nonempty zone name on which the
platform lookup throws (an unrecognized IANA name), `zonedToUtcISO` does
not return null: the offset lookup yields 0, so the result is the literal
date/time interpreted as UTC. -/
theorem zonedToUtcISO_unknown_zone_not_null (tzView : TzView) (d t z : String) (n : Int)
    (hd : d ≠ "") (ht : t ≠ "") (hz : z ≠ "")
    (hfail : ∀ ms, tzView z ms = none)
    (hn : parseNaive d t = some n)
    (hrange : n.natAbs ≤ 8640000000000000) :
    zonedToUtcISO tzView d t z = some (renderIso n) ∧
      zonedToUtcISO tzView d t z ≠ none := by
  have hoff : tzOffsetMinutesAt tzView z (some n) = 0 := by
    unfold tzOffsetMinutesAt
    simp [hfail, hrange]
  have h1 : zonedToUtcISO tzView d t z = some (renderIso n) := by
    rw [zonedToUtcISO_spec tzView d t z n hd ht hz hn, hoff]
    simp [toISOString, hrange]
  exact ⟨h1, by rw [h1]; exact Option.some_ne_none _⟩

/-- C10 witness: the theorem applied at a failing oracle and the inputs
2024-07-04, 14:30, zone "Not/AZone". -/
theorem zonedToUtcISO_unknown_zone_not_null_witness :
    zonedToUtcISO (fun _ _ => none) "2024-07-04" "14:30" "Not/AZone" =
        some (renderIso 1720103400000) ∧
      zonedToUtcISO (fun _ _ => none) "2024-07-04" "14:30" "Not/AZone" ≠ none :=
  zonedToUtcISO_unknown_zone_not_null (fun _ _ => none) _ _ _ 1720103400000
    (by decide) (by decide) (by decide) (fun _ => rfl) (by decide) (by decide)

/-- C6: `GET /api/slots?date=2024-01-01` responds with exactly three
ISO-8601 timestamps whose instants are 600, 780 and 930 minutes after UTC
midnight of 2024-01-01 (epoch day 19723), in that order — namely
10:00:00Z, 13:00:00Z and 15:30:00.000Z of that day — for every server-zone
offset for which 09:00 local on that date falls on the UTC day 2024-01-01
(every offset in (-15h, +9h], in particular a UTC server). -/
theorem slots_20240101_offsets (o nowMs : Int) (h1 : -900 < o) (h2 : o ≤ 540) :
    slotsHandler o nowMs (some "2024-01-01") =
      some ["2024-01-01T10:00:00.000Z", "2024-01-01T13:00:00.000Z",
            "2024-01-01T15:30:00.000Z"] ∧
      daysFromCivil 2024 1 1 = 19723 ∧
      toISOString (19723 * 86400000 + 600 * 60000) = some "2024-01-01T10:00:00.000Z" ∧
      toISOString (19723 * 86400000 + 780 * 60000) = some "2024-01-01T13:00:00.000Z" ∧
      toISOString (19723 * 86400000 + 930 * 60000) = some "2024-01-01T15:30:00.000Z" := by
  have key : Int.fdiv (daysFromCivil 2024 1 1 * 86400000 + 9 * 3600000 - o * 60000) 86400000
      = 19723 := by
    rw [show daysFromCivil 2024 1 1 = 19723 from by decide]
    rw [Int.fdiv_eq_ediv _ (by norm_num)]
    omega
  refine ⟨?_, by decide, by decide, by decide, by decide⟩
  unfold slotsHandler setUTCHoursZero
  simp only [show parseSlotsDate "2024-01-01" = some (2024, 1, 1) from by decide, key]
  decide

/-- C6 witness: the theorem applied at server offset 0 (a UTC server). -/
theorem slots_20240101_offsets_witness :
    slotsHandler 0 0 (some "2024-01-01") =
      some ["2024-01-01T10:00:00.000Z", "2024-01-01T13:00:00.000Z",
            "2024-01-01T15:30:00.000Z"] ∧
      daysFromCivil 2024 1 1 = 19723 ∧
      toISOString (19723 * 86400000 + 600 * 60000) = some "2024-01-01T10:00:00.000Z" ∧
      toISOString (19723 * 86400000 + 780 * 60000) = some "2024-01-01T13:00:00.000Z" ∧
      toISOString (19723 * 86400000 + 930 * 60000) = some "2024-01-01T15:30:00.000Z" :=
  slots_20240101_offsets 0 0 (by decide) (by decide)

/-- All four required fields are nonempty after normalization. -/
def requiredPresent (b : List (String × String)) : Prop :=
  normFullName b ≠ "" ∧ normEmail b ≠ "" ∧ normDate b ≠ "" ∧ normTime b ≠ ""

instance (b : List (String × String)) : Decidable (requiredPresent b) := by
  unfold requiredPresent
  infer_instance

/-- No live de-dup entry for the request's key at time `now`
(`recentBookings.get(key) > now` is false). -/
def dedupMiss (recent : List (String × Int)) (now : Int) (b : List (String × String)) : Prop :=
  match mget recent (dedupKey b) with
  | some t => t ≤ now
  | none => True

instance (recent : List (String × Int)) (now : Int) (b : List (String × String)) :
    Decidable (dedupMiss recent now b) := by
  unfold dedupMiss
  rcases mget recent (dedupKey b) with _ | t <;> simp <;> infer_instance

/-- C1: a POST /api/book request in which any required field (full name,
email, date, time) is missing or empty after normalization gets HTTP 400
with the missing-required-fields error, and the handler performs no side
effect at all: no insert attempt, no email attempt, and the de-dup cache
is untouched. -/
theorem book_missing_required_400_no_effects (env : BookEnv)
    (recent : List (String × Int)) (now : Int) (body : List (String × String))
    (h : normFullName body = "" ∨ normEmail body = "" ∨ normDate body = "" ∨
        normTime body = "") :
    handleBook env recent now body =
      { resp := ⟨400, false, false,
          some "Missing required fields: fullName, email, date, time.", none⟩,
        recentAfter := recent, effects := [] } := by
  unfold handleBook
  rcases h with h | h | h | h <;> simp [h]

/-- C1 witness: a body with only an email gets the 400 and no effects. -/
theorem book_missing_required_400_no_effects_witness :
    handleBook ⟨true, true, 120, true, true, true, fun _ _ => none⟩
        [("k", 5)] 0 [("email", "a@b.c")] =
      { resp := ⟨400, false, false,
          some "Missing required fields: fullName, email, date, time.", none⟩,
        recentAfter := [("k", 5)], effects := [] } :=
  book_missing_required_400_no_effects _ _ _ _ (Or.inl (by decide))

/-- Helper: `mget` after `mset` at the same key finds the new value
(map part, when the key is already bound). -/
theorem mget_map_set (k : String) (v : Int) :
    ∀ m : List (String × Int),
      mget (m.map (fun p => if p.1 == k then (k, v) else p)) k =
        (if (m.find? (fun p => p.1 == k)).isSome then some v else none) := by
  intro m
  induction m with
  | nil => simp [mget]
  | cons hd tl ih =>
    rcases hhd : (hd.1 == k) with _ | _
    · have g1 : (if (hd.1 == k) = true then (k, v) else hd) = hd := by simp [hhd]
      simp only [List.map_cons, g1, mget]
      rw [List.find?_cons_of_neg _ (by simp [hhd]), List.find?_cons_of_neg _ (by simp [hhd])]
      exact ih
    · have g1 : (if (hd.1 == k) = true then (k, v) else hd) = (k, v) := by simp [hhd]
      simp only [List.map_cons, g1, mget]
      rw [List.find?_cons_of_pos _ (by simp), List.find?_cons_of_pos _ (by simp [hhd])]
      simp

/-- Helper: `mget` after appending a binding for an absent key finds it. -/
theorem mget_append_absent (k : String) (v : Int) :
    ∀ m : List (String × Int), m.find? (fun p => p.1 == k) = none →
      mget (m ++ [(k, v)]) k = some v := by
  intro m
  induction m with
  | nil => intro _; simp [mget]
  | cons hd tl ih =>
    intro hnone
    rcases hhd : (hd.1 == k) with _ | _
    · rw [List.find?_cons_of_neg _ (by simp [hhd])] at hnone
      simp only [List.cons_append, mget]
      rw [List.find?_cons_of_neg _ (by simp [hhd])]
      exact ih hnone
    · rw [List.find?_cons_of_pos _ (by simp [hhd])] at hnone
      exact absurd hnone (by simp)

/-- Helper: looking up the key just written by `mset` yields the written
expiry. -/
theorem mget_mset_self (m : List (String × Int)) (k : String) (v : Int) :
    mget (mset m k v) k = some v := by
  unfold mset
  rcases hf : (m.find? (fun p => p.1 == k)) with _ | p
  · simp only [hf, Option.isSome_none, Bool.false_eq_true, if_false]
    exact mget_append_absent k v m hf
  · simp only [hf, Option.isSome_some, if_true]
    rw [mget_map_set k v m, hf]
    simp

/-- Helper: characterization of an accepted request (required fields
present, no live de-dup entry): the 200 ok response with the email status,
the refreshed de-dup entry, and the effect list determined by the
configuration and outcome oracles. -/
theorem handleBook_accepted (env : BookEnv) (recent : List (String × Int))
    (now : Int) (b : List (String × String))
    (hv : requiredPresent b) (hmiss : dedupMiss recent now b) :
    handleBook env recent now b =
      { resp := ⟨200, true, false, none,
          some (if env.transporterEnabled then (env.userMailOk, env.salesMailOk)
            else (false, false))⟩,
        recentAfter := mset recent (dedupKey b) (now + env.dedupSeconds * 1000),
        effects :=
          (if env.poolEnabled then
            [Effect.dbInsert env.dbOk
              (zonedToUtcISO env.tzView (normDate b) (normTime b) (normTimeZone b))]
          else []) ++
          (if env.transporterEnabled then
            [Effect.mailUser env.userMailOk, Effect.mailSales env.salesMailOk]
          else []) } := by
  obtain ⟨h1, h2, h3, h4⟩ := hv
  unfold handleBook
  simp only [h1, h2, h3, h4]
  unfold dedupMiss at hmiss
  rcases hm : mget recent (dedupKey b) with _ | t
  · simp [hm]
  · rw [hm] at hmiss
    have : decide (now < t) = false := by simp; omega
    simp [hm, this]

/-- C2: when a valid submission is followed by a second submission with
the same (email, date, time, time zone) tuple while the first one's de-dup
entry is still live (`now2` before the stored expiry `now1 + TTL*1000`),
the second call returns the 200 dedup success, performs no insert attempt
and no email attempt, and leaves the cache unchanged. -/
theorem book_dedup_second_call_no_effects (env : BookEnv)
    (recent : List (String × Int)) (now1 now2 : Int)
    (b1 b2 : List (String × String))
    (hv1 : requiredPresent b1) (hv2 : requiredPresent b2)
    (hmiss : dedupMiss recent now1 b1)
    (hkey : dedupKey b2 = dedupKey b1)
    (hlive : now2 < now1 + env.dedupSeconds * 1000) :
    (handleBook env (handleBook env recent now1 b1).recentAfter now2 b2).resp =
        ⟨200, true, true, none, none⟩ ∧
      (handleBook env (handleBook env recent now1 b1).recentAfter now2 b2).effects = [] ∧
      (handleBook env (handleBook env recent now1 b1).recentAfter now2 b2).recentAfter =
        (handleBook env recent now1 b1).recentAfter := by
  rw [handleBook_accepted env recent now1 b1 hv1 hmiss]
  obtain ⟨g1, g2, g3, g4⟩ := hv2
  unfold handleBook
  simp only [g1, g2, g3, g4]
  have hget := mget_mset_self recent (dedupKey b1) (now1 + env.dedupSeconds * 1000)
  simp only [hkey, hget]
  simp [hlive]

/-- C2 witness: the same body resubmitted 1 second later is deduped with
no effects. -/
theorem book_dedup_second_call_no_effects_witness :
    (handleBook ⟨true, true, 120, true, true, true, fun _ _ => none⟩
        (handleBook ⟨true, true, 120, true, true, true, fun _ _ => none⟩ [] 0
          [("fullName", "Ada"), ("email", "a@b.c"), ("date", "2024-07-04"),
            ("time", "14:30")]).recentAfter 1000
        [("fullName", "Ada"), ("email", "a@b.c"), ("date", "2024-07-04"),
          ("time", "14:30")]).resp = ⟨200, true, true, none, none⟩ ∧
      (handleBook ⟨true, true, 120, true, true, true, fun _ _ => none⟩
        (handleBook ⟨true, true, 120, true, true, true, fun _ _ => none⟩ [] 0
          [("fullName", "Ada"), ("email", "a@b.c"), ("date", "2024-07-04"),
            ("time", "14:30")]).recentAfter 1000
        [("fullName", "Ada"), ("email", "a@b.c"), ("date", "2024-07-04"),
          ("time", "14:30")]).effects = [] ∧
      (handleBook ⟨true, true, 120, true, true, true, fun _ _ => none⟩
        (handleBook ⟨true, true, 120, true, true, true, fun _ _ => none⟩ [] 0
          [("fullName", "Ada"), ("email", "a@b.c"), ("date", "2024-07-04"),
            ("time", "14:30")]).recentAfter 1000
        [("fullName", "Ada"), ("email", "a@b.c"), ("date", "2024-07-04"),
          ("time", "14:30")]).recentAfter =
        (handleBook ⟨true, true, 120, true, true, true, fun _ _ => none⟩ [] 0
          [("fullName", "Ada"), ("email", "a@b.c"), ("date", "2024-07-04"),
            ("time", "14:30")]).recentAfter :=
  book_dedup_second_call_no_effects _ [] 0 1000 _ _
    (by decide) (by decide) (by decide) rfl (by decide)

/-- C3 counterexample: a POST /api/book submission with all four required
fields present (so "valid" in the claim's sense) performs zero insert
attempts when it arrives while a live de-dup entry exists for its key, and
likewise when no DB pool is configured — refuting "for every valid
submission exactly one database insert attempt occurs". -/
theorem book_valid_but_zero_inserts :
    requiredPresent
        [("fullName", "Ada"), ("email", "a@b.c"), ("date", "2024-07-04"),
          ("time", "14:30")] ∧
      countDbInserts
        (handleBook ⟨true, true, 120, true, true, true, fun _ _ => none⟩
          [("a@b.c|2024-07-04|14:30|UTC", 1000)] 0
          [("fullName", "Ada"), ("email", "a@b.c"), ("date", "2024-07-04"),
            ("time", "14:30")]).effects = 0 ∧
      countDbInserts
        (handleBook ⟨false, true, 120, true, true, true, fun _ _ => none⟩ [] 0
          [("fullName", "Ada"), ("email", "a@b.c"), ("date", "2024-07-04"),
            ("time", "14:30")]).effects = 0 := by
  refine ⟨by decide, by decide, by decide⟩

/-- C3 (amended): for every valid submission that is not short-circuited
by the de-dup cache, when the DB pool is configured, exactly one insert
attempt occurs; an insert failure is caught (the oracle `dbOk` is
arbitrary, in particular false), the emails are still attempted whenever
the transporter exists, and the request still returns success. -/
theorem book_one_insert_attempt (env : BookEnv) (recent : List (String × Int))
    (now : Int) (b : List (String × String))
    (hv : requiredPresent b) (hmiss : dedupMiss recent now b)
    (hpool : env.poolEnabled = true) :
    countDbInserts (handleBook env recent now b).effects = 1 ∧
      (handleBook env recent now b).resp.status = 200 ∧
      (handleBook env recent now b).resp.ok = true ∧
      (env.transporterEnabled = true →
        Effect.mailUser env.userMailOk ∈ (handleBook env recent now b).effects ∧
        Effect.mailSales env.salesMailOk ∈ (handleBook env recent now b).effects) := by
  rw [handleBook_accepted env recent now b hv hmiss]
  rcases ht : env.transporterEnabled <;>
    simp [hpool, ht, countDbInserts]

/-- C3 witness: a valid fresh submission whose insert fails (dbOk false)
still attempts exactly one insert, attempts both emails, and returns 200. -/
theorem book_one_insert_attempt_witness :
    countDbInserts
        (handleBook ⟨true, true, 120, false, true, true, fun _ _ => none⟩ [] 0
          [("fullName", "Ada"), ("email", "a@b.c"), ("date", "2024-07-04"),
            ("time", "14:30")]).effects = 1 ∧
      (handleBook ⟨true, true, 120, false, true, true, fun _ _ => none⟩ [] 0
        [("fullName", "Ada"), ("email", "a@b.c"), ("date", "2024-07-04"),
          ("time", "14:30")]).resp.status = 200 ∧
      (handleBook ⟨true, true, 120, false, true, true, fun _ _ => none⟩ [] 0
        [("fullName", "Ada"), ("email", "a@b.c"), ("date", "2024-07-04"),
          ("time", "14:30")]).resp.ok = true ∧
      ((true : Bool) = true →
        Effect.mailUser true ∈
          (handleBook ⟨true, true, 120, false, true, true, fun _ _ => none⟩ [] 0
            [("fullName", "Ada"), ("email", "a@b.c"), ("date", "2024-07-04"),
              ("time", "14:30")]).effects ∧
        Effect.mailSales true ∈
          (handleBook ⟨true, true, 120, false, true, true, fun _ _ => none⟩ [] 0
            [("fullName", "Ada"), ("email", "a@b.c"), ("date", "2024-07-04"),
              ("time", "14:30")]).effects) :=
  book_one_insert_attempt ⟨true, true, 120, false, true, true, fun _ _ => none⟩ [] 0 _
    (by decide) (by decide) rfl

/-- C4: for every valid submission that reaches the notification step (not
de-dup-suppressed, transporter configured), both the submitter
confirmation and the sales alert are attempted whatever each send's
outcome oracle says — in particular a failure of either one does not
prevent the other attempt — and the response is success (200, ok) in every
outcome combination. -/
theorem book_mails_independent_best_effort (env : BookEnv)
    (recent : List (String × Int)) (now : Int) (b : List (String × String))
    (hv : requiredPresent b) (hmiss : dedupMiss recent now b)
    (ht : env.transporterEnabled = true) :
    Effect.mailUser env.userMailOk ∈ (handleBook env recent now b).effects ∧
      Effect.mailSales env.salesMailOk ∈ (handleBook env recent now b).effects ∧
      (handleBook env recent now b).resp.status = 200 ∧
      (handleBook env recent now b).resp.ok = true := by
  rw [handleBook_accepted env recent now b hv hmiss]
  rcases hp : env.poolEnabled <;> simp [ht, hp]

/-- C4 witness: a submission whose confirmation send fails still attempts
the sales alert and returns success. -/
theorem book_mails_independent_best_effort_witness :
    Effect.mailUser false ∈
        (handleBook ⟨true, true, 120, true, false, true, fun _ _ => none⟩ [] 0
          [("fullName", "Ada"), ("email", "a@b.c"), ("date", "2024-07-04"),
            ("time", "14:30")]).effects ∧
      Effect.mailSales true ∈
        (handleBook ⟨true, true, 120, true, false, true, fun _ _ => none⟩ [] 0
          [("fullName", "Ada"), ("email", "a@b.c"), ("date", "2024-07-04"),
            ("time", "14:30")]).effects ∧
      (handleBook ⟨true, true, 120, true, false, true, fun _ _ => none⟩ [] 0
        [("fullName", "Ada"), ("email", "a@b.c"), ("date", "2024-07-04"),
          ("time", "14:30")]).resp.status = 200 ∧
      (handleBook ⟨true, true, 120, true, false, true, fun _ _ => none⟩ [] 0
        [("fullName", "Ada"), ("email", "a@b.c"), ("date", "2024-07-04"),
          ("time", "14:30")]).resp.ok = true :=
  book_mails_independent_best_effort ⟨true, true, 120, true, false, true, fun _ _ => none⟩
    [] 0 _ (by decide) (by decide) rfl

/-- C7: running the schema-ensure step twice in succession on a reachable
database whose bookings table already has the full schema is idempotent:
each run leaves the catalog unchanged and reports no error (for any pool
configuration). -/
theorem ensureSchema_twice_noop (p : Bool) (db : PgState)
    (hfull : db.bookingsCols = some bookingsSchemaCols) :
    ensureSchema p true db = (db, false) ∧
      ensureSchema p true (ensureSchema p true db).1 = (db, false) := by
  unfold ensureSchema createBookingsIfNotExists
  cases p <;> simp [hfull]

/-- C7 witness: the theorem applied to the fully-migrated table with the
pool configured. -/
theorem ensureSchema_twice_noop_witness :
    ensureSchema true true ⟨some bookingsSchemaCols⟩ = (⟨some bookingsSchemaCols⟩, false) ∧
      ensureSchema true true (ensureSchema true true ⟨some bookingsSchemaCols⟩).1 =
        (⟨some bookingsSchemaCols⟩, false) :=
  ensureSchema_twice_noop true ⟨some bookingsSchemaCols⟩ rfl

/-- C8: the system is append-only on the bookings table — for every
operation (each issuing only create/alter/insert/select statements) and
every starting table state, the rows present before are still there, in
place, with at most new rows appended after them; no statement updates or
deletes a row. -/
theorem bookings_append_only (op : ApiOp) (db : DbTable) :
    ∃ tail, (runStmts db (stmtsOf op)).rows = db.rows ++ tail := by
  cases op with
  | bookInsert r =>
    by_cases h : db.hasBookings = true
    · exact ⟨[r], by simp [runStmts, stmtsOf, applyStmt, h]⟩
    · exact ⟨[], by simp [runStmts, stmtsOf, applyStmt, h]⟩
  | bookDemoInsert r =>
    by_cases h : db.hasBookings = true
    · exact ⟨[r], by simp [runStmts, stmtsOf, applyStmt, h]⟩
    · exact ⟨[], by simp [runStmts, stmtsOf, applyStmt, h]⟩
  | dbMigrate => exact ⟨[], by simp [runStmts, stmtsOf, applyStmt]⟩
  | dbInfo => exact ⟨[], by simp [runStmts, stmtsOf, applyStmt]⟩
  | dbTest => exact ⟨[], by simp [runStmts, stmtsOf, applyStmt]⟩
  | schemaEnsure => exact ⟨[], by simp [runStmts, stmtsOf, applyStmt]⟩
  | schemaEnsureLegacy => exact ⟨[], by simp [runStmts, stmtsOf, applyStmt]⟩

/-- C9: the session-minting endpoints never disclose the server-held
vendor API key: the client-visible response (status and body) of
`handleCreateWebCall` (serving POST /api/retell/token and
POST /api/retell/create-web-call) and of the realtime-session handler is
identical for any two nonempty values of the key, on every success and
failure path — the key flows only into the outbound Authorization header,
never into the response. -/
theorem session_minting_key_noninterference
    (k1 k2 agentId : String) (hk1 : k1 ≠ "") (hk2 : k2 ≠ "")
    (outcome : FetchOutcome)
    (brand hours bizTz : String) (slotMin windowDays : Int)
    (bodyVoice bodyInstructions : Option Json) :
    ((handleCreateWebCall k1 agentId outcome).status =
        (handleCreateWebCall k2 agentId outcome).status ∧
      (handleCreateWebCall k1 agentId outcome).body =
        (handleCreateWebCall k2 agentId outcome).body) ∧
      ((realtimeSession k1 brand hours bizTz slotMin windowDays bodyVoice
            bodyInstructions outcome).status =
          (realtimeSession k2 brand hours bizTz slotMin windowDays bodyVoice
            bodyInstructions outcome).status ∧
        (realtimeSession k1 brand hours bizTz slotMin windowDays bodyVoice
            bodyInstructions outcome).body =
          (realtimeSession k2 brand hours bizTz slotMin windowDays bodyVoice
            bodyInstructions outcome).body) := by
  refine ⟨⟨?_, ?_⟩, ?_, ?_⟩ <;>
  · simp only [handleCreateWebCall, realtimeSession]
    by_cases ha : agentId = "" <;>
      cases outcome <;>
        simp [hk1, hk2, ha] <;>
          (try (split <;> rfl))

/-- C9 witness: two distinct keys on a successful vendor reply yield the
same client response for both handlers. -/
theorem session_minting_key_noninterference_witness :
    ((handleCreateWebCall "key-one" "agent-1"
          (.replied true 200 (some (.obj [("access_token", .str "tok")])))).status =
        (handleCreateWebCall "key-two" "agent-1"
          (.replied true 200 (some (.obj [("access_token", .str "tok")])))).status ∧
      (handleCreateWebCall "key-one" "agent-1"
          (.replied true 200 (some (.obj [("access_token", .str "tok")])))).body =
        (handleCreateWebCall "key-two" "agent-1"
          (.replied true 200 (some (.obj [("access_token", .str "tok")])))).body) ∧
      ((realtimeSession "key-one" "Agentlyne" "Mon-Fri 9am-5pm" "America/New_York" 60 30
            none none
            (.replied true 200 (some (.obj [("access_token", .str "tok")])))).status =
          (realtimeSession "key-two" "Agentlyne" "Mon-Fri 9am-5pm" "America/New_York" 60 30
            none none
            (.replied true 200 (some (.obj [("access_token", .str "tok")])))).status ∧
        (realtimeSession "key-one" "Agentlyne" "Mon-Fri 9am-5pm" "America/New_York" 60 30
            none none
            (.replied true 200 (some (.obj [("access_token", .str "tok")])))).body =
          (realtimeSession "key-two" "Agentlyne" "Mon-Fri 9am-5pm" "America/New_York" 60 30
            none none
            (.replied true 200 (some (.obj [("access_token", .str "tok")])))).body) :=
  session_minting_key_noninterference "key-one" "key-two" "agent-1"
    (by decide) (by decide)
    (.replied true 200 (some (.obj [("access_token", .str "tok")])))
    "Agentlyne" "Mon-Fri 9am-5pm" "America/New_York" 60 30 none none

end Agentlyne
